import Mathlib

/-!
Shallow embedding of the OKR-tracking backend core:
the OKR data model (src/models/OKR.js), the OKR route handlers
(GET / POST / PUT / PATCH progress / POST comments / DELETE on /api/okrs),
and the user profile update handler (src/routes/users.js).
Ids and timestamps are modelled as natural numbers; the authenticated
actor carries the fields the handlers read (_id, role, organization,
department, team).
-/

/-- Roles referenced by the route handlers (`req.user.role === 'admin'`,
`authorize('admin', 'team_lead')`); every other role behaves as a plain member. -/
inductive Role where
  | admin
  | team_lead
  | member
deriving DecidableEq

/-- `status` enum of okrSchema: ['draft', 'active', 'completed', 'cancelled']. -/
inductive Status where
  | draft
  | active
  | completed
  | cancelled
deriving DecidableEq

/-- `priority` enum of okrSchema: ['low', 'medium', 'high', 'critical']. -/
inductive Priority where
  | low
  | medium
  | high
  | critical
deriving DecidableEq

/-- `assignedTo.type` enum: ['user', 'team']. -/
inductive AssignType where
  | user
  | team
deriving DecidableEq

/-- One element of okrSchema.keyResults: description (required),
optional target text, progress number (min 0, max 100, default 0). -/
structure KeyResult where
  description : String
  target : Option String := none
  progress : Nat := 0
deriving DecidableEq

/-- okrSchema.assignedTo: a required discriminator plus two optional refs. -/
structure AssignedTo where
  type : AssignType
  user : Option Nat := none
  team : Option Nat := none
deriving DecidableEq

/-- One element of okrSchema.comments: user ref (required), trimmed text
(required), createdAt defaulting to now. -/
structure Comment where
  user : Nat
  text : String
  createdAt : Nat
deriving DecidableEq

/-- The OKR document (okrSchema). -/
structure OKR where
  title : String
  objective : String
  keyResults : List KeyResult
  assignedTo : AssignedTo
  assignedBy : Nat
  organization : Nat
  department : Option Nat := none
  team : Option Nat := none
  status : Status := Status.draft
  priority : Priority := Priority.medium
  startDate : Nat
  dueDate : Nat
  completedDate : Option Nat := none
  comments : List Comment := []
  isActive : Bool := true
deriving DecidableEq

/-- The authenticated actor (`req.user`): _id, role, organization,
optional department and team. -/
structure Actor where
  id : Nat
  role : Role
  organization : Nat
  department : Option Nat := none
  team : Option Nat := none
deriving DecidableEq

/-- JavaScript `Math.round`: round half toward positive infinity. -/
def jsRound (q : ℚ) : ℤ := ⌊q + 1 / 2⌋

/-- okrSchema.methods.calculateProgress: 0 for an empty key-result list,
else `Math.round` of the reduce-accumulated total divided by the length. -/
def calculateProgress (okr : OKR) : ℤ :=
  if okr.keyResults.length = 0 then 0
  else
    let totalProgress : Nat := okr.keyResults.foldl (fun sum kr => sum + kr.progress) 0
    jsRound ((totalProgress : ℚ) / (okr.keyResults.length : ℚ))

/-- The `overallProgress` virtual: computed from `calculateProgress` on
every read, never stored (it is not a field of `OKR`). -/
def overallProgress (okr : OKR) : ℤ := calculateProgress okr

/-- Modelled from the spec's words, for comparison with the code-derived
`calculateProgress`: the rounded arithmetic mean of a list of progress
values, or 0 if the list is empty. -/
def roundedMean (l : List Nat) : ℤ :=
  if l = [] then 0 else jsRound ((l.sum : ℚ) / (l.length : ℚ))

/-- Outcome of a route handler, abstracting the HTTP layer:
400 with field errors, 404, 403, or 200/201 with the resulting record. -/
inductive Outcome (α : Type) where
  | validationFailed : Outcome α
  | notFound : Outcome α
  | forbidden : Outcome α
  | ok : α → Outcome α
deriving DecidableEq

/-- Optional query parameters of GET /api/okrs: status, priority, and the
`assignedTo` selector string ('me' or 'team'). -/
structure OKRQuery where
  status : Option Status := none
  priority : Option Priority := none
  assignedTo : Option String := none
deriving DecidableEq

/-- The filter GET /api/okrs builds: organization = actor's organization,
isActive = true, then the optional status / priority / assignedTo clauses,
all conjoined. An OKR is listed iff it satisfies this predicate. -/
def listFilter (u : Actor) (q : OKRQuery) (okr : OKR) : Bool :=
  decide (okr.organization = u.organization) && okr.isActive &&
  (match q.status with
   | none => true
   | some s => decide (okr.status = s)) &&
  (match q.priority with
   | none => true
   | some p => decide (okr.priority = p)) &&
  (if q.assignedTo = some "me" then decide (okr.assignedTo.user = some u.id)
   else if q.assignedTo = some "team" then
     match u.team with
     | some t => decide (okr.assignedTo.team = some t)
     | none => true
   else true)

/-- GET /api/okrs/:id: 404 when findById misses, 403 when the record's
organization differs from the actor's, otherwise the record — with no
check of isActive. -/
def getOKR (u : Actor) (findById : Option OKR) : Outcome OKR :=
  match findById with
  | none => Outcome.notFound
  | some okr =>
    if okr.organization ≠ u.organization then Outcome.forbidden
    else Outcome.ok okr

/-- express-validator `body('keyResults').isArray({ min: 1 })` used by
POST /api/okrs and PUT /api/okrs/:id. -/
def keyResultsArrayMinOne (krs : List KeyResult) : Bool :=
  decide (1 ≤ krs.length)

/-- express-validator `body('keyResults').isArray()` used by
PATCH /api/okrs/:id/progress: any array passes, with no minimum length. -/
def keyResultsArrayAny (_krs : List KeyResult) : Bool := true

/-- Request body of POST /api/okrs. The handler destructures only title,
objective, keyResults, assignedTo, priority, dueDate; the remaining fields
model values a client may also send, which the handler never reads. -/
structure CreateBody where
  title : String
  objective : String
  keyResults : List KeyResult
  assignedTo : AssignedTo
  priority : Option Priority := none
  dueDate : Nat
  suppliedAssignedBy : Option Nat := none
  suppliedOrganization : Option Nat := none
  suppliedDepartment : Option Nat := none
  suppliedTeam : Option Nat := none
  suppliedStatus : Option Status := none
  suppliedCompletedDate : Option Nat := none
deriving DecidableEq

/-- Validation chain of POST /api/okrs: title and objective non-empty,
keyResults an array of at least one element each with non-empty
description; assignedTo.type ∈ {user, team} and the ISO-8601 dueDate hold
by typing in this model. -/
def validateCreateBody (b : CreateBody) : Bool :=
  decide (b.title ≠ "") && decide (b.objective ≠ "") &&
  keyResultsArrayMinOne b.keyResults &&
  b.keyResults.all (fun kr => decide (kr.description ≠ ""))

/-- POST /api/okrs: on passing validation, builds the new OKR taking
assignedBy, organization, department and team from the acting user, with
priority defaulting to medium (`priority || 'medium'`), and the schema
defaults status = draft, startDate = now, completedDate unset,
comments = [], isActive = true. -/
def createOKR (u : Actor) (b : CreateBody) (now : Nat) : Outcome OKR :=
  if validateCreateBody b = false then Outcome.validationFailed
  else Outcome.ok
    { title := b.title
      objective := b.objective
      keyResults := b.keyResults
      assignedTo := b.assignedTo
      assignedBy := u.id
      organization := u.organization
      department := u.department
      team := u.team
      priority := b.priority.getD Priority.medium
      startDate := now
      dueDate := b.dueDate }

/-- The canUpdate check of PUT /api/okrs/:id: admin, or the assigner,
or (assignedTo.type = 'user' and assignedTo.user = actor). -/
def canUpdate (u : Actor) (okr : OKR) : Bool :=
  decide (u.role = Role.admin) || decide (okr.assignedBy = u.id) ||
  (decide (okr.assignedTo.type = AssignType.user) &&
   decide (okr.assignedTo.user = some u.id))

/-- The canUpdateProgress check of PATCH /api/okrs/:id/progress: the same
predicate as canUpdate. -/
def canUpdateProgress (u : Actor) (okr : OKR) : Bool :=
  decide (u.role = Role.admin) || decide (okr.assignedBy = u.id) ||
  (decide (okr.assignedTo.type = AssignType.user) &&
   decide (okr.assignedTo.user = some u.id))

/-- The canDelete check of DELETE /api/okrs/:id: admin or the assigner
only — no assignee branch. -/
def canDelete (u : Actor) (okr : OKR) : Bool :=
  decide (u.role = Role.admin) || decide (okr.assignedBy = u.id)

/-- Request body of PUT /api/okrs/:id. assignedTo, priority and status are
optional: the handler guards each with a truthiness test. -/
structure UpdateBody where
  title : String
  objective : String
  keyResults : List KeyResult
  assignedTo : Option AssignedTo := none
  priority : Option Priority := none
  dueDate : Nat
  status : Option Status := none
deriving DecidableEq

/-- Validation chain of PUT /api/okrs/:id: same mandatory fields as
create (title, objective, ≥1 key result with description, valid dueDate). -/
def validateUpdateBody (b : UpdateBody) : Bool :=
  decide (b.title ≠ "") && decide (b.objective ≠ "") &&
  keyResultsArrayMinOne b.keyResults &&
  b.keyResults.all (fun kr => decide (kr.description ≠ ""))

/-- The field assignments of PUT /api/okrs/:id (lines 169-181): title,
objective, keyResults and dueDate overwritten; priority falls back to the
existing value; assignedTo replaced only if supplied; if status is
supplied it overwrites, and when it equals completed, completedDate is
stamped with the current time. -/
def applyUpdate (okr : OKR) (b : UpdateBody) (now : Nat) : OKR :=
  { okr with
    title := b.title
    objective := b.objective
    keyResults := b.keyResults
    priority := b.priority.getD okr.priority
    dueDate := b.dueDate
    assignedTo := b.assignedTo.getD okr.assignedTo
    status := b.status.getD okr.status
    completedDate :=
      if b.status = some Status.completed then some now else okr.completedDate }

/-- PUT /api/okrs/:id: validation, then 404, then the canUpdate check
(note: no organization comparison anywhere in the handler), then the
update is applied and saved. -/
def putOKR (u : Actor) (findById : Option OKR) (b : UpdateBody) (now : Nat) :
    Outcome OKR :=
  if validateUpdateBody b = false then Outcome.validationFailed
  else match findById with
  | none => Outcome.notFound
  | some okr =>
    if canUpdate u okr = false then Outcome.forbidden
    else Outcome.ok (applyUpdate okr b now)

/-- PATCH /api/okrs/:id/progress: array-shape validation, then 404, then
the canUpdateProgress check (no organization comparison), then the
key-results array is replaced verbatim. -/
def patchProgressOKR (u : Actor) (findById : Option OKR)
    (keyResults : List KeyResult) : Outcome OKR :=
  if keyResultsArrayAny keyResults = false then Outcome.validationFailed
  else match findById with
  | none => Outcome.notFound
  | some okr =>
    if canUpdateProgress u okr = false then Outcome.forbidden
    else Outcome.ok { okr with keyResults := keyResults }

/-- The `trim: true` of the comment-text schema path: strip leading and
trailing whitespace. -/
def strTrim (s : String) : String :=
  ⟨((s.data.dropWhile Char.isWhitespace).reverse.dropWhile
      Char.isWhitespace).reverse⟩

/-- POST /api/okrs/:id/comments: text must be non-empty, then 404 when the
OKR is missing; no role, organization, ownership or isActive check; the
comment {user = actor, text, createdAt = now} is pushed onto the sequence
(the schema trims the stored text). -/
def addCommentOKR (u : Actor) (findById : Option OKR) (text : String)
    (now : Nat) : Outcome OKR :=
  if text = "" then Outcome.validationFailed
  else match findById with
  | none => Outcome.notFound
  | some okr =>
    Outcome.ok { okr with
      comments := okr.comments ++ [⟨u.id, strTrim text, now⟩] }

/-- DELETE /api/okrs/:id: 404, then the canDelete check (no organization
comparison), then isActive is set to false and the record saved. -/
def deleteOKR (u : Actor) (findById : Option OKR) : Outcome OKR :=
  match findById with
  | none => Outcome.notFound
  | some okr =>
    if canDelete u okr = false then Outcome.forbidden
    else Outcome.ok { okr with isActive := false }

/-- The User document as read by src/routes/users.js. -/
structure UserRec where
  id : Nat
  firstName : String
  lastName : String
  role : Role
  organization : Nat
  department : Option Nat := none
  team : Option Nat := none
  isActive : Bool := true
deriving DecidableEq

/-- Request body of PUT /api/users/:id; each field is applied only when
truthy. -/
structure UserUpdateBody where
  firstName : Option String := none
  lastName : Option String := none
  team : Option Nat := none
  department : Option Nat := none
deriving DecidableEq

/-- The canUpdate check of PUT /api/users/:id: admin or the user
themself. -/
def canUpdateUser (u : Actor) (targetId : Nat) : Bool :=
  decide (u.role = Role.admin) || decide (u.id = targetId)

/-- The guarded field assignments of PUT /api/users/:id. -/
def applyUserUpdate (user : UserRec) (b : UserUpdateBody) : UserRec :=
  { user with
    firstName := b.firstName.getD user.firstName
    lastName := b.lastName.getD user.lastName
    team := match b.team with | some t => some t | none => user.team
    department := match b.department with | some d => some d | none => user.department }

/-- PUT /api/users/:id: 404, then the canUpdate check (note: no
organization comparison anywhere in the handler), then the guarded
assignments are applied and saved. -/
def putUser (u : Actor) (targetId : Nat) (findById : Option UserRec)
    (b : UserUpdateBody) : Outcome UserRec :=
  match findById with
  | none => Outcome.notFound
  | some user =>
    if canUpdateUser u targetId = false then Outcome.forbidden
    else Outcome.ok (applyUserUpdate user b)

/-- A concrete sample OKR living in organization 1, assigned by user 2 to
user 3, already completed at time 5, with one comment. -/
def okrW : OKR :=
  { title := "Ship v1"
    objective := "Launch"
    keyResults := [{ description := "d", progress := 40 }]
    assignedTo := { type := AssignType.user, user := some 3 }
    assignedBy := 2
    organization := 1
    startDate := 0
    dueDate := 9
    status := Status.completed
    completedDate := some 5
    comments := [{ user := 4, text := "hi", createdAt := 1 }] }

/-- A concrete admin actor belonging to organization 2 — a different
organization from okrW's and org1UserW's. -/
def crossOrgAdminW : Actor := { id := 1, role := Role.admin, organization := 2 }

/-- A concrete member actor of organization 1 whose id matches okrW's
assignee but not its assigner. -/
def assigneeW : Actor := { id := 3, role := Role.member, organization := 1 }

/-- A concrete user record living in organization 1. -/
def org1UserW : UserRec :=
  { id := 50, firstName := "a", lastName := "b", role := Role.member,
    organization := 1 }

/-- A concrete valid full-update body supplying status completed. -/
def completedBodyW : UpdateBody :=
  { title := "Ship v1"
    objective := "Launch"
    keyResults := [{ description := "d", progress := 40 }]
    dueDate := 9
    status := some Status.completed }

/-- A concrete valid create body that also carries client-supplied values
for the server-populated fields. -/
def createBodyW : CreateBody :=
  { title := "Ship v1"
    objective := "Launch"
    keyResults := [{ description := "Ship v1", progress := 0 }]
    assignedTo := { type := AssignType.team, team := some 11 }
    dueDate := 20
    suppliedAssignedBy := some 99
    suppliedOrganization := some 99
    suppliedDepartment := some 99
    suppliedTeam := some 99
    suppliedStatus := some Status.completed
    suppliedCompletedDate := some 99 }

lemma foldl_progress (l : List KeyResult) (a : Nat) :
    l.foldl (fun sum kr => sum + kr.progress) a
      = a + (l.map KeyResult.progress).sum := by
  induction l generalizing a with
  | nil => simp
  | cons kr t ih => simp [ih]; ring

/-- Claim C1: for every OKR, the derived overallProgress equals the
rounded arithmetic mean of its key results' progress values, equals 0
when the key-result list is empty, and the spec's examples hold:
[0,50,100] gives 50 and [33,34] gives 34. It is computed on read (it is a
function of the record, not a stored field). -/
theorem okr_overallProgress_spec (okr : OKR) :
    overallProgress okr = roundedMean (okr.keyResults.map KeyResult.progress) ∧
    (okr.keyResults = [] → overallProgress okr = 0) ∧
    roundedMean [0, 50, 100] = 50 ∧
    roundedMean [33, 34] = 34 := by
  have hmain : overallProgress okr
      = roundedMean (okr.keyResults.map KeyResult.progress) := by
    unfold overallProgress calculateProgress roundedMean
    by_cases h : okr.keyResults = []
    · simp [h]
    · simp [h, List.length_eq_zero, List.map_eq_nil_iff, List.length_map,
        foldl_progress]
  refine ⟨hmain, ?_, ?_, ?_⟩
  · intro h
    rw [hmain, h]
    simp [roundedMean]
  · norm_num [roundedMean, jsRound]; decide
  · norm_num [roundedMean, jsRound]; decide

/-- Witness for C1 at a concrete OKR with an empty key-result list. -/
theorem okr_overallProgress_spec_witness :
    overallProgress
      { title := "t", objective := "o", keyResults := [],
        assignedTo := { type := AssignType.team, team := some 1 },
        assignedBy := 7, organization := 1, startDate := 0, dueDate := 9 } = 0 :=
  (okr_overallProgress_spec _).2.1 rfl

/-- Claim C2 (refuted by the code): the cross-organization admin of
organization 2 is NOT met with Forbidden on OKR full update, OKR progress
update, OKR delete, or user profile update of records in organization 1 —
none of those four handlers compares organizations, so the claimed
organization-scope check does not exist there and the role check alone
decides. -/
theorem crossOrg_write_not_forbidden :
    crossOrgAdminW.organization ≠ okrW.organization ∧
    putOKR crossOrgAdminW (some okrW) completedBodyW 100 ≠ Outcome.forbidden ∧
    patchProgressOKR crossOrgAdminW (some okrW) [] ≠ Outcome.forbidden ∧
    deleteOKR crossOrgAdminW (some okrW) ≠ Outcome.forbidden ∧
    crossOrgAdminW.organization ≠ org1UserW.organization ∧
    putUser crossOrgAdminW 50 (some org1UserW) {} ≠ Outcome.forbidden := by
  decide

/-- Claim C3: on a full update that passes validation and the permission
check, the handler applies applyUpdate; when the supplied status is
completed, completedDate is stamped with the current time; when any other
status is supplied, status is overwritten and completedDate is left
untouched. -/
theorem okr_update_status_stamps_completedDate (u : Actor) (okr : OKR)
    (b : UpdateBody) (now : Nat)
    (hv : validateUpdateBody b = true) (hp : canUpdate u okr = true) :
    putOKR u (some okr) b now = Outcome.ok (applyUpdate okr b now) ∧
    (b.status = some Status.completed →
      (applyUpdate okr b now).status = Status.completed ∧
      (applyUpdate okr b now).completedDate = some now) ∧
    (∀ s, b.status = some s → s ≠ Status.completed →
      (applyUpdate okr b now).status = s ∧
      (applyUpdate okr b now).completedDate = okr.completedDate) := by
  refine ⟨by simp [putOKR, hv, hp], ?_, ?_⟩
  · intro h
    simp [applyUpdate, h]
  · intro s h hs
    simp [applyUpdate, h, hs]

/-- Witness for C3 at a concrete OKR and body: the update stamps
completedDate with the update time 10. -/
theorem okr_update_status_stamps_completedDate_witness :
    (applyUpdate okrW completedBodyW 10).completedDate = some 10 :=
  ((okr_update_status_stamps_completedDate assigneeW okrW completedBodyW 10
      (by decide) (by decide)).2.1 rfl).2

/-- Claim C4 counterexample: okrW's completedDate is already set to 5,
yet a later full update supplying status completed re-assigns it to the
new time 10 — so completedDate is not assigned exactly once. -/
theorem completedDate_restamped_counterexample :
    okrW.completedDate = some 5 ∧
    (applyUpdate okrW completedBodyW 10).completedDate = some 10 ∧
    (applyUpdate okrW completedBodyW 10).completedDate ≠ okrW.completedDate := by
  decide

/-- Claim C4 (amended): completedDate is never cleared by a full update;
every full update supplying status completed (re)stamps it with the
current time, even when it is already set, and any update not supplying
status completed leaves it unchanged. -/
theorem completedDate_never_cleared (okr : OKR) (b : UpdateBody) (now : Nat) :
    (b.status = some Status.completed →
      (applyUpdate okr b now).completedDate = some now) ∧
    (b.status ≠ some Status.completed →
      (applyUpdate okr b now).completedDate = okr.completedDate) ∧
    (okr.completedDate ≠ none → (applyUpdate okr b now).completedDate ≠ none) := by
  refine ⟨?_, ?_, ?_⟩
  · intro h
    simp [applyUpdate, h]
  · intro h
    simp [applyUpdate, h]
  · intro h
    by_cases hc : b.status = some Status.completed
    · simp [applyUpdate, hc]
    · simpa [applyUpdate, hc] using h

/-- Witness for the amended C4 at a concrete OKR and body. -/
theorem completedDate_never_cleared_witness :
    (applyUpdate okrW completedBodyW 10).completedDate = some 10 :=
  (completedDate_never_cleared okrW completedBodyW 10).1 rfl

/-- Claim C5: deleting an OKR is permitted exactly when the actor is
admin or is the assigner; an actor who is only the assignee is denied
deletion while being permitted both full update and progress update. -/
theorem okr_delete_excludes_assignee (u : Actor) (okr : OKR) :
    (canDelete u okr = true ↔ (u.role = Role.admin ∨ okr.assignedBy = u.id)) ∧
    (u.role ≠ Role.admin → okr.assignedBy ≠ u.id →
      okr.assignedTo.type = AssignType.user →
      okr.assignedTo.user = some u.id →
      deleteOKR u (some okr) = Outcome.forbidden ∧
      canUpdate u okr = true ∧
      canUpdateProgress u okr = true) := by
  constructor
  · simp [canDelete]
  · intro h1 h2 h3 h4
    refine ⟨?_, ?_, ?_⟩
    · simp [deleteOKR, canDelete, h1, h2]
    · simp [canUpdate, h3, h4]
    · simp [canUpdateProgress, h3, h4]

/-- Witness for C5: the concrete assignee-only actor is forbidden to
delete okrW yet passes both update checks. -/
theorem okr_delete_excludes_assignee_witness :
    deleteOKR assigneeW (some okrW) = Outcome.forbidden ∧
    canUpdate assigneeW okrW = true ∧
    canUpdateProgress assigneeW okrW = true :=
  (okr_delete_excludes_assignee assigneeW okrW).2
    (by decide) (by decide) (by decide) (by decide)

/-- Claim C6: a successful delete sets isActive to false and changes no
other field; the deleted record fails every list filter (the list scopes
to isActive = true), while GET by direct id still returns it for a
same-organization actor since the single-record read never checks
isActive. -/
theorem okr_soft_delete_frame (u v : Actor) (okr d : OKR) (q : OKRQuery)
    (h : deleteOKR u (some okr) = Outcome.ok d) :
    d.isActive = false ∧
    d.title = okr.title ∧ d.objective = okr.objective ∧
    d.keyResults = okr.keyResults ∧ d.assignedTo = okr.assignedTo ∧
    d.assignedBy = okr.assignedBy ∧ d.organization = okr.organization ∧
    d.department = okr.department ∧ d.team = okr.team ∧
    d.status = okr.status ∧ d.priority = okr.priority ∧
    d.startDate = okr.startDate ∧ d.dueDate = okr.dueDate ∧
    d.completedDate = okr.completedDate ∧ d.comments = okr.comments ∧
    listFilter v q d = false ∧
    (v.organization = okr.organization → getOKR v (some d) = Outcome.ok d) := by
  have hd : d = { okr with isActive := false } := by
    by_cases hc : canDelete u okr = false
    · simp [deleteOKR, hc] at h
    · simp [deleteOKR, hc] at h
      exact h.symm
  subst hd
  refine ⟨rfl, rfl, rfl, rfl, rfl, rfl, rfl, rfl, rfl, rfl, rfl, rfl, rfl,
    rfl, rfl, ?_, ?_⟩
  · simp [listFilter]
  · intro hv
    simp [getOKR, hv]

/-- Witness for C6: the assigner soft-deletes okrW; the result has
isActive = false. -/
theorem okr_soft_delete_frame_witness :
    ({ okrW with isActive := false } : OKR).isActive = false :=
  (okr_soft_delete_frame { id := 2, role := Role.member, organization := 1 }
    assigneeW okrW { okrW with isActive := false } {} (by decide)).1

/-- Claim C7: a permitted progress update replaces the key-results array
verbatim and changes no other field; its validation accepts any array
including the empty one, while the create and full-update validations
reject an empty key-results array. -/
theorem okr_progress_update_frame (u : Actor) (okr : OKR)
    (krs : List KeyResult)
    (hp : canUpdateProgress u okr = true) :
    patchProgressOKR u (some okr) krs
      = Outcome.ok { okr with keyResults := krs } ∧
    ({ okr with keyResults := krs } : OKR).keyResults = krs ∧
    ({ okr with keyResults := krs } : OKR).title = okr.title ∧
    ({ okr with keyResults := krs } : OKR).objective = okr.objective ∧
    ({ okr with keyResults := krs } : OKR).assignedTo = okr.assignedTo ∧
    ({ okr with keyResults := krs } : OKR).assignedBy = okr.assignedBy ∧
    ({ okr with keyResults := krs } : OKR).organization = okr.organization ∧
    ({ okr with keyResults := krs } : OKR).department = okr.department ∧
    ({ okr with keyResults := krs } : OKR).team = okr.team ∧
    ({ okr with keyResults := krs } : OKR).status = okr.status ∧
    ({ okr with keyResults := krs } : OKR).priority = okr.priority ∧
    ({ okr with keyResults := krs } : OKR).startDate = okr.startDate ∧
    ({ okr with keyResults := krs } : OKR).dueDate = okr.dueDate ∧
    ({ okr with keyResults := krs } : OKR).completedDate = okr.completedDate ∧
    ({ okr with keyResults := krs } : OKR).comments = okr.comments ∧
    ({ okr with keyResults := krs } : OKR).isActive = okr.isActive ∧
    keyResultsArrayAny [] = true ∧
    keyResultsArrayMinOne [] = false ∧
    patchProgressOKR u (some okr) [] = Outcome.ok { okr with keyResults := [] } ∧
    (∀ b : UpdateBody, b.keyResults = [] → validateUpdateBody b = false) ∧
    (∀ b : CreateBody, b.keyResults = [] → validateCreateBody b = false) := by
  refine ⟨by simp [patchProgressOKR, keyResultsArrayAny, hp], rfl, rfl, rfl,
    rfl, rfl, rfl, rfl, rfl, rfl, rfl, rfl, rfl, rfl, rfl, rfl, rfl,
    by decide, by simp [patchProgressOKR, keyResultsArrayAny, hp], ?_, ?_⟩
  · intro b hb
    simp [validateUpdateBody, keyResultsArrayMinOne, hb]
  · intro b hb
    simp [validateCreateBody, keyResultsArrayMinOne, hb]

/-- Witness for C7: the assignee replaces okrW's key results with the
empty array. -/
theorem okr_progress_update_frame_witness :
    patchProgressOKR assigneeW (some okrW) []
      = Outcome.ok { okrW with keyResults := [] } :=
  (okr_progress_update_frame assigneeW okrW [] (by decide)).1

/-- Claim C8: appending a comment whose text is non-empty and already
trimmed appends exactly one entry {user = actor id, text, createdAt = now}
at the end of the comments sequence, keeps every pre-existing comment
unchanged and in its original order, and changes no other field. -/
theorem okr_comment_append_frame (u : Actor) (okr : OKR) (text : String)
    (now : Nat) (ht : strTrim text = text) (hne : text ≠ "") :
    addCommentOKR u (some okr) text now
      = Outcome.ok { okr with
          comments := okr.comments ++ [⟨u.id, text, now⟩] } ∧
    (okr.comments ++ [(⟨u.id, text, now⟩ : Comment)]).length
      = okr.comments.length + 1 ∧
    (okr.comments ++ [(⟨u.id, text, now⟩ : Comment)]).take okr.comments.length
      = okr.comments ∧
    ({ okr with comments := okr.comments ++ [⟨u.id, text, now⟩] } : OKR).title
      = okr.title ∧
    ({ okr with comments := okr.comments ++ [⟨u.id, text, now⟩] } : OKR).objective
      = okr.objective ∧
    ({ okr with comments := okr.comments ++ [⟨u.id, text, now⟩] } : OKR).keyResults
      = okr.keyResults ∧
    ({ okr with comments := okr.comments ++ [⟨u.id, text, now⟩] } : OKR).assignedTo
      = okr.assignedTo ∧
    ({ okr with comments := okr.comments ++ [⟨u.id, text, now⟩] } : OKR).assignedBy
      = okr.assignedBy ∧
    ({ okr with comments := okr.comments ++ [⟨u.id, text, now⟩] } : OKR).organization
      = okr.organization ∧
    ({ okr with comments := okr.comments ++ [⟨u.id, text, now⟩] } : OKR).department
      = okr.department ∧
    ({ okr with comments := okr.comments ++ [⟨u.id, text, now⟩] } : OKR).team
      = okr.team ∧
    ({ okr with comments := okr.comments ++ [⟨u.id, text, now⟩] } : OKR).status
      = okr.status ∧
    ({ okr with comments := okr.comments ++ [⟨u.id, text, now⟩] } : OKR).priority
      = okr.priority ∧
    ({ okr with comments := okr.comments ++ [⟨u.id, text, now⟩] } : OKR).startDate
      = okr.startDate ∧
    ({ okr with comments := okr.comments ++ [⟨u.id, text, now⟩] } : OKR).dueDate
      = okr.dueDate ∧
    ({ okr with comments := okr.comments ++ [⟨u.id, text, now⟩] } : OKR).completedDate
      = okr.completedDate ∧
    ({ okr with comments := okr.comments ++ [⟨u.id, text, now⟩] } : OKR).isActive
      = okr.isActive := by
  refine ⟨?_, by simp, List.take_left okr.comments _, rfl, rfl, rfl, rfl, rfl,
    rfl, rfl, rfl, rfl, rfl, rfl, rfl, rfl, rfl⟩
  simp [addCommentOKR, hne, ht]

/-- Witness for C8: actor 3 appends "done" to okrW's single existing
comment. -/
theorem okr_comment_append_frame_witness :
    addCommentOKR assigneeW (some okrW) "done" 12
      = Outcome.ok { okrW with
          comments := okrW.comments ++ [⟨3, "done", 12⟩] } :=
  (okr_comment_append_frame assigneeW okrW "done" 12 (by decide) (by decide)).1

/-- Claim C9: on a create that passes validation, the resulting record's
assignedBy, organization, department and team come from the acting user's
context — unchanged under any client-supplied values for those fields —
priority defaults to medium when omitted, status defaults to draft, and
completedDate is unset. -/
theorem okr_create_from_actor_context (u : Actor) (b : CreateBody) (now : Nat)
    (hv : validateCreateBody b = true) :
    ∃ r : OKR, createOKR u b now = Outcome.ok r ∧
      r.assignedBy = u.id ∧ r.organization = u.organization ∧
      r.department = u.department ∧ r.team = u.team ∧
      r.status = Status.draft ∧ r.completedDate = none ∧
      r.priority = b.priority.getD Priority.medium ∧
      (b.priority = none → r.priority = Priority.medium) ∧
      r.title = b.title ∧ r.objective = b.objective ∧
      r.keyResults = b.keyResults ∧ r.assignedTo = b.assignedTo ∧
      r.dueDate = b.dueDate ∧ r.startDate = now ∧
      r.comments = [] ∧ r.isActive = true ∧
      (∀ (x1 x2 x3 x4 : Option Nat) (s : Option Status) (c : Option Nat),
        createOKR u { b with
          suppliedAssignedBy := x1, suppliedOrganization := x2,
          suppliedDepartment := x3, suppliedTeam := x4,
          suppliedStatus := s, suppliedCompletedDate := c } now
          = createOKR u b now) := by
  have h : createOKR u b now = Outcome.ok
      { title := b.title
        objective := b.objective
        keyResults := b.keyResults
        assignedTo := b.assignedTo
        assignedBy := u.id
        organization := u.organization
        department := u.department
        team := u.team
        priority := b.priority.getD Priority.medium
        startDate := now
        dueDate := b.dueDate } := by
    simp [createOKR, hv]
  refine ⟨_, h, rfl, rfl, rfl, rfl, rfl, rfl, rfl,
    ?_, rfl, rfl, rfl, rfl, rfl, rfl, rfl, rfl, ?_⟩
  · intro hp
    simp [hp]
  · intro x1 x2 x3 x4 s c
    rfl

/-- Witness for C9: the concrete create body carrying bogus
client-supplied server fields still yields a record whose context fields
come from the actor. -/
theorem okr_create_from_actor_context_witness :
    ∃ r : OKR, createOKR assigneeW createBodyW 42 = Outcome.ok r ∧
      r.assignedBy = assigneeW.id ∧ r.organization = assigneeW.organization ∧
      r.department = assigneeW.department ∧ r.team = assigneeW.team ∧
      r.status = Status.draft ∧ r.completedDate = none ∧
      r.priority = createBodyW.priority.getD Priority.medium ∧
      (createBodyW.priority = none → r.priority = Priority.medium) ∧
      r.title = createBodyW.title ∧ r.objective = createBodyW.objective ∧
      r.keyResults = createBodyW.keyResults ∧
      r.assignedTo = createBodyW.assignedTo ∧
      r.dueDate = createBodyW.dueDate ∧ r.startDate = 42 ∧
      r.comments = [] ∧ r.isActive = true ∧
      (∀ (x1 x2 x3 x4 : Option Nat) (s : Option Status) (c : Option Nat),
        createOKR assigneeW { createBodyW with
          suppliedAssignedBy := x1, suppliedOrganization := x2,
          suppliedDepartment := x3, suppliedTeam := x4,
          suppliedStatus := s, suppliedCompletedDate := c } 42
          = createOKR assigneeW createBodyW 42) :=
  okr_create_from_actor_context assigneeW createBodyW 42 (by decide)

/-- Claim C10: the comment-append handler performs no authorization
beyond authentication — it can never yield Forbidden for any actor on any
find result, and for every existing OKR (any role, any organization, any
ownership relation, even isActive = false) an append with non-empty text
succeeds. -/
theorem okr_comment_no_authorization (u : Actor) (fb : Option OKR)
    (text : String) (now : Nat) :
    addCommentOKR u fb text now ≠ Outcome.forbidden ∧
    (∀ okr, fb = some okr → text ≠ "" →
      addCommentOKR u fb text now
        = Outcome.ok { okr with
            comments := okr.comments ++ [⟨u.id, strTrim text, now⟩] }) := by
  constructor
  · by_cases h : text = ""
    · simp [addCommentOKR, h]
    · cases fb with
      | none => simp [addCommentOKR, h]
      | some okr => simp [addCommentOKR, h]
  · intro okr hfb hne
    subst hfb
    simp [addCommentOKR, hne]

/-- Witness for C10: a member of a different organization with no
relation to the soft-deleted okrW successfully appends a comment. -/
theorem okr_comment_no_authorization_witness :
    addCommentOKR { id := 9, role := Role.member, organization := 7 }
      (some { okrW with isActive := false }) "lgtm" 3
      = Outcome.ok { okrW with
          isActive := false
          comments := okrW.comments ++ [⟨9, strTrim "lgtm", 3⟩] } :=
  (okr_comment_no_authorization { id := 9, role := Role.member, organization := 7 }
    (some { okrW with isActive := false }) "lgtm" 3).2
    { okrW with isActive := false } rfl (by decide)
